import Mathlib

/-!
Shallow embedding of the two-step limousine booking flow of the `mcl`
repository: `src/bookings/views.py` (Nominatim/OSRM variant) and
`src/orders/views.py` (Google Maps variant).

Machine floats of the source are modelled as exact rationals; the Python
builtin `round(x, 2)` is modelled as round-half-to-even at two decimal
places. External collaborators (geocoder, router, directions API, the
database and the per-user session) are modelled as explicit parameters and
explicit state.
-/

/-- Nearest integer to a rational, ties going to the even integer
(the rounding mode of Python's builtin `round`). -/
def roundHalfEven (x : ℚ) : ℤ :=
  let f := ⌊x⌋
  let r := x - (f : ℚ)
  if r < 1/2 then f
  else if 1/2 < r then f + 1
  else if f % 2 = 0 then f else f + 1

/-- Python's `round(x, 2)`: round to two decimal places, ties to even. -/
def pyRound2 (x : ℚ) : ℚ := (roundHalfEven (x * 100) : ℚ) / 100

/-- One row of the per-tier rate table: base fare, per-kilometre rate,
extra-stop flat fee. -/
structure RateConf where
  base   : ℚ
  per_km : ℚ
  stop   : ℚ
  deriving DecidableEq, Repr

/-- `rates.get(service_type, rates["Sedan 1-5"])` from both views:
the fixed three-tier table with fallback to the `Sedan 1-5` row. -/
def rates_get (service_type : String) : RateConf :=
  if service_type = "Sedan 1-5" then ⟨30.00, 3.50, 15.00⟩
  else if service_type = "SUV 1-7" then ⟨55.00, 5.50, 25.00⟩
  else if service_type = "Stretch 1-13" then ⟨135.00, 9.50, 65.00⟩
  else ⟨30.00, 3.50, 15.00⟩

/-- The `breakdown` dictionary built by `calculate` (identical keys in both
views). -/
structure Breakdown where
  base                   : ℚ
  distance_km            : ℚ
  distance_cost          : ℚ
  stop_cost              : ℚ
  toll_cost              : ℚ
  baby_cost              : ℚ
  return_multiplier      : Bool
  subtotal_before_return : ℚ
  deriving DecidableEq, Repr

/-- The per-user session, restricted to the three keys the flow touches.
`none` models an absent key. -/
structure Session where
  pending_price     : Option ℚ
  pending_breakdown : Option Breakdown
  pending_has_tolls : Option Bool
  deriving DecidableEq, Repr

/-- `request.POST.get(k, 2)` for the two numeric fields returns the
submitted string when present and the integer default `2` otherwise. -/
inductive StrOrInt where
  | s (v : String)
  | i (n : Nat)
  deriving DecidableEq, Repr

/-- `form_data["pickup_time"] or datetime.time(0, 0)` stores either the
submitted string or the Python `time` object for midnight. -/
inductive TimeVal where
  | s (v : String)
  | time (hour minute : Nat)
  deriving DecidableEq, Repr

/-- The POST body of one submission. A field read with
`request.POST.get(k, "")` is a plain `String` (absent ≡ `""`); a field
whose default is not `""` is an `Option String`; a checkbox tested with
`k in request.POST` is a `Bool`. `extra` holds any further client-supplied
key/value pairs (e.g. an echoed price): the views never read them. -/
structure Post where
  action               : Option String
  passenger_name       : String
  passenger_number     : String
  passenger_email      : String
  number_of_passengers : Option String
  number_of_bags       : Option String
  pickup_address       : String
  destination_address  : String
  additional_stop      : String
  flight_number        : String
  pickup_date          : Option String
  pickup_time          : String
  limo_service_type    : Option String
  baby_seat            : Bool
  return_ride          : Bool
  has_tolls            : Bool
  special_instruction  : String
  vehicle_colour       : String
  wedding_ribbon       : String
  special_signboard    : String
  name_on_card         : String
  card_type            : String
  card_number          : String
  extra                : List (String × String)
  deriving DecidableEq, Repr

/-- Python's `str.strip()`: drop leading and trailing whitespace. -/
def pyStrip (s : String) : String :=
  ⟨((s.data.dropWhile Char.isWhitespace).reverse.dropWhile Char.isWhitespace).reverse⟩

/-- Helper for `pyContains`: does `needle` occur in the character list? -/
def pyContainsAux (needle : List Char) : List Char → Bool
  | [] => needle.isPrefixOf []
  | c :: cs => needle.isPrefixOf (c :: cs) || pyContainsAux needle cs

/-- Python's substring test `needle in hay`. -/
def pyContains (needle hay : String) : Bool := pyContainsAux needle.data hay.data

/-- `request.POST.get("additional_stop", "").strip() or None`. -/
def stripOrNone (s : String) : Option String :=
  if pyStrip s = "" then none else some (pyStrip s)

/-- The `form_data` dictionary (identical, key for key, in both views). -/
structure FormData where
  passenger_name       : String
  passenger_number     : String
  passenger_email      : String
  number_of_passengers : StrOrInt
  number_of_bags       : StrOrInt
  pickup_address       : String
  destination_address  : String
  additional_stop      : String
  flight_number        : String
  pickup_date          : String
  pickup_time          : String
  limo_service_type    : String
  baby_seat            : Bool
  return_ride          : Bool
  special_instruction  : String
  vehicle_colour       : String
  wedding_ribbon       : String
  special_signboard    : String
  name_on_card         : String
  card_type            : String
  card_number          : String
  deriving DecidableEq, Repr

/-- Building `form_data` from the POST body; `today` stands for
`str(datetime.date.today())`. This block is duplicated verbatim in the two
source files. -/
def extractForm (today : String) (p : Post) : FormData :=
  { passenger_name       := p.passenger_name
    passenger_number     := p.passenger_number
    passenger_email      := p.passenger_email
    number_of_passengers := match p.number_of_passengers with
                            | some v => .s v
                            | none => .i 2
    number_of_bags       := match p.number_of_bags with
                            | some v => .s v
                            | none => .i 2
    pickup_address       := pyStrip p.pickup_address
    destination_address  := pyStrip p.destination_address
    additional_stop      := (stripOrNone p.additional_stop).getD ""
    flight_number        := p.flight_number
    pickup_date          := p.pickup_date.getD today
    pickup_time          := p.pickup_time
    limo_service_type    := p.limo_service_type.getD "Sedan 1-5"
    baby_seat            := p.baby_seat
    return_ride          := p.return_ride
    special_instruction  := p.special_instruction
    vehicle_colour       := p.vehicle_colour
    wedding_ribbon       := p.wedding_ribbon
    special_signboard    := p.special_signboard
    name_on_card         := p.name_on_card
    card_type            := p.card_type
    card_number          := p.card_number }

/-- The persisted booking row: the keyword arguments of
`Bookings.objects.create(...)` / `Order.objects.create(...)` (the two
argument lists are identical). -/
structure BookingRecord where
  passenger_name       : String
  passenger_number     : String
  passenger_email      : String
  number_of_passengers : StrOrInt
  number_of_bags       : StrOrInt
  pickup_address       : String
  destination_address  : String
  additional_stop      : Option String
  flight_number        : String
  pickup_date          : String
  pickup_time          : TimeVal
  limo_service_type    : String
  baby_seat            : Bool
  return_ride          : Bool
  special_instruction  : String
  vehicle_colour       : String
  wedding_ribbon       : String
  special_signboard    : String
  name_on_card         : String
  card_type            : String
  card_number          : String
  total_price          : ℚ
  deriving DecidableEq, Repr

/-- What a view call renders: template name plus context, one constructor
per `render` site. `confirmed` carries `Option Breakdown` because
`session.pop("pending_breakdown", {})` defaults to an empty dict
(modelled `none`). -/
inductive Rendered where
  | preview (template : String) (form_data : FormData) (final_price : ℚ)
      (breakdown : Breakdown) (has_tolls : Bool) (distance_km : ℚ)
  | formError (template : String) (error : String) (form_data : FormData)
  | confirmed (template : String) (order : BookingRecord)
      (breakdown : Option Breakdown) (has_tolls : Bool) (is_return : Bool)
  | blank (template : String)
  deriving DecidableEq, Repr

/-- Result of one view call: the rendered response, the session after the
call, and the record persisted by the call (if any). -/
abbrev ViewResult := Rendered × Session × Option BookingRecord

/-- Outcome of the Nominatim/OSRM helper `get_route`: either a distance or
one of the two exception classes the view distinguishes
(`ValueError` with its message, or `requests.RequestException`). -/
inductive GrErr where
  | valueError (msg : String)
  | requestException
  deriving DecidableEq, Repr

/-- The external Nominatim geocoder and OSRM router.
`geocode a = .error ()` models a network-level failure
(`requests.RequestException`), `.ok none` an empty result list,
`.ok (some c)` coordinates. `route cs = .ok none` models an OSRM response
whose `code` is not `"Ok"`, `.ok (some m)` a route of `m` metres. -/
structure OsrmEnv where
  geocode : String → Except Unit (Option (ℚ × ℚ))
  route   : List (ℚ × ℚ) → Except Unit (Option ℚ)

/-- The OSRM half of `get_route` (from the coordinate list on). -/
def get_route_osrm (env : OsrmEnv) (coords : List (ℚ × ℚ)) : Except GrErr ℚ :=
  match env.route coords with
  | .error _ => .error .requestException
  | .ok none =>
      .error (.valueError "OSRM could not calculate a route for the given addresses.")
  | .ok (some distance_m) => .ok (pyRound2 (distance_m / 1000))

/-- `get_route(origin, destination, waypoint)` from
`src/bookings/views.py`: geocode origin, then destination, then the
optional waypoint, then ask OSRM for the driving distance (km, rounded to
two decimals). A geocode miss raises
`ValueError("Address not found: ...")`. -/
def get_route (env : OsrmEnv) (origin destination : String)
    (waypoint : Option String) : Except GrErr ℚ :=
  match env.geocode origin with
  | .error _ => .error .requestException
  | .ok none => .error (.valueError ("Address not found: " ++ origin))
  | .ok (some origin_coords) =>
    match env.geocode destination with
    | .error _ => .error .requestException
    | .ok none => .error (.valueError ("Address not found: " ++ destination))
    | .ok (some dest_coords) =>
      match waypoint with
      | none => get_route_osrm env [origin_coords, dest_coords]
      | some w =>
        match env.geocode w with
        | .error _ => .error .requestException
        | .ok none => .error (.valueError ("Address not found: " ++ w))
        | .ok (some wp) => get_route_osrm env [origin_coords, wp, dest_coords]

/-- One leg of a Google Maps directions route: metres
(`leg["distance"]["value"]`) and the `html_instructions` of its steps. -/
structure GLeg where
  distance_value : ℤ
  steps          : List String
  deriving DecidableEq, Repr

/-- Python's substring test `"Toll road" in s`. -/
def hasTollMarker (s : String) : Bool :=
  pyContains "Toll road" s

/-- The Google Maps directions call of `src/orders/views.py`: a function of
origin, destination and optional waypoint that either raises (an exception
whose `str` is the carried message) or returns a list of routes, each a
list of legs. -/
abbrev GDirections := String → String → Option String → Except String (List (List GLeg))

/-- The view of `src/bookings/views.py`. `env` is the external
Nominatim/OSRM pair, `db` the outcome `objects.create` would have
(`some e` = it raises with message `e`), `today` the value of
`str(datetime.date.today())`, `method_post` whether the request method is
POST, `p` the POST body and `s` the per-user session. -/
def bookings (env : OsrmEnv) (db : Option String) (today : String)
    (method_post : Bool) (p : Post) (s : Session) : ViewResult :=
  if method_post then
    let action := p.action.getD "calculate"
    let pickup := pyStrip p.pickup_address
    let destination := pyStrip p.destination_address
    let extra_stop := stripOrNone p.additional_stop
    let service_type := p.limo_service_type.getD "Sedan 1-5"
    let has_baby_seat := p.baby_seat
    let is_return_ride := p.return_ride
    let form_data := extractForm today p
    if action = "calculate" then
      match get_route env pickup destination extra_stop with
      | .error (.valueError msg) =>
          (.formError "bookings/booking_form.html" msg form_data, s, none)
      | .error .requestException =>
          (.formError "bookings/booking_form.html"
            "Could not connect to the routing service. Please check your addresses and try again."
            form_data, s, none)
      | .ok distance_km =>
        let has_tolls := p.has_tolls
        let conf := rates_get service_type
        let sub0 := conf.base + distance_km * conf.per_km
        let sub1 := if extra_stop.isSome then sub0 + conf.stop else sub0
        let sub2 := if has_tolls then sub1 + 18.50 else sub1
        let subtotal := if has_baby_seat then sub2 + 20.00 else sub2
        let final_price := pyRound2 (if is_return_ride then subtotal * 2 else subtotal)
        let breakdown : Breakdown :=
          { base := conf.base
            distance_km := distance_km
            distance_cost := pyRound2 (distance_km * conf.per_km)
            stop_cost := if extra_stop.isSome then conf.stop else 0
            toll_cost := if has_tolls then 18.50 else 0
            baby_cost := if has_baby_seat then 20.00 else 0
            return_multiplier := is_return_ride
            subtotal_before_return := pyRound2 subtotal }
        let s' : Session :=
          { pending_price := some final_price
            pending_breakdown := some breakdown
            pending_has_tolls := some has_tolls }
        (.preview "orders/booking_summary_preview.html" form_data final_price
          breakdown has_tolls distance_km, s', none)
    else if action = "confirm" then
      match s.pending_price with
      | none =>
          (.formError "bookings/booking_form.html"
            "Your session expired. Please fill in the form again." form_data,
            { s with pending_price := none }, none)
      | some final_price =>
        let s1 : Session := { s with pending_price := none }
        match db with
        | some e =>
            (.formError "bookings/booking_form.html"
              ("Could not save your booking: " ++ e) form_data, s1, none)
        | none =>
          let new_order : BookingRecord :=
            { passenger_name := form_data.passenger_name
              passenger_number := form_data.passenger_number
              passenger_email := form_data.passenger_email
              number_of_passengers := form_data.number_of_passengers
              number_of_bags := form_data.number_of_bags
              pickup_address := pickup
              destination_address := destination
              additional_stop := extra_stop
              flight_number := form_data.flight_number
              pickup_date := form_data.pickup_date
              pickup_time := if form_data.pickup_time = "" then .time 0 0
                             else .s form_data.pickup_time
              limo_service_type := service_type
              baby_seat := has_baby_seat
              return_ride := is_return_ride
              special_instruction := form_data.special_instruction
              vehicle_colour := form_data.vehicle_colour
              wedding_ribbon := form_data.wedding_ribbon
              special_signboard := form_data.special_signboard
              name_on_card := form_data.name_on_card
              card_type := form_data.card_type
              card_number := form_data.card_number
              total_price := final_price }
          let breakdown := s1.pending_breakdown
          let has_tolls := s1.pending_has_tolls.getD false
          let s2 : Session :=
            { s1 with pending_breakdown := none, pending_has_tolls := none }
          (.confirmed "orders/booking_confirmed.html" new_order breakdown
            has_tolls is_return_ride, s2, some new_order)
    else
      (.blank "bookings/booking_form.html", s, none)
  else
    (.blank "bookings/booking_form.html", s, none)

/-- The view of `src/orders/views.py`. `dirs` is the Google Maps client's
`directions` call; `orders[0]` raising `IndexError` on an empty directions
list is part of the `except Exception` branch and surfaces with the
message of that exception. The other parameters are as in `bookings`. -/
def orders (dirs : GDirections) (db : Option String) (today : String)
    (method_post : Bool) (p : Post) (s : Session) : ViewResult :=
  if method_post then
    let action := p.action.getD "calculate"
    let pickup := pyStrip p.pickup_address
    let destination := pyStrip p.destination_address
    let extra_stop := stripOrNone p.additional_stop
    let service_type := p.limo_service_type.getD "Sedan 1-5"
    let has_baby_seat := p.baby_seat
    let is_return_ride := p.return_ride
    let form_data := extractForm today p
    if action = "calculate" then
      match dirs pickup destination extra_stop with
      | .error e =>
          (.formError "orders/booking_form.html"
            ("Route calculation failed: " ++ e) form_data, s, none)
      | .ok [] =>
          (.formError "orders/booking_form.html"
            ("Route calculation failed: " ++ "list index out of range")
            form_data, s, none)
      | .ok (legs :: _) =>
        let total_meters : ℤ := (legs.map (fun leg => leg.distance_value)).sum
        let distance_km := pyRound2 ((total_meters : ℚ) / 1000)
        let has_tolls :=
          legs.any (fun leg => leg.steps.any (fun step => hasTollMarker step))
        let conf := rates_get service_type
        let sub0 := conf.base + distance_km * conf.per_km
        let sub1 := if extra_stop.isSome then sub0 + conf.stop else sub0
        let sub2 := if has_tolls then sub1 + 18.50 else sub1
        let subtotal := if has_baby_seat then sub2 + 20.00 else sub2
        let final_price := pyRound2 (if is_return_ride then subtotal * 2 else subtotal)
        let breakdown : Breakdown :=
          { base := conf.base
            distance_km := distance_km
            distance_cost := pyRound2 (distance_km * conf.per_km)
            stop_cost := if extra_stop.isSome then conf.stop else 0
            toll_cost := if has_tolls then 18.50 else 0
            baby_cost := if has_baby_seat then 20.00 else 0
            return_multiplier := is_return_ride
            subtotal_before_return := pyRound2 subtotal }
        let s' : Session :=
          { pending_price := some final_price
            pending_breakdown := some breakdown
            pending_has_tolls := some has_tolls }
        (.preview "orders/booking_summary_preview.html" form_data final_price
          breakdown has_tolls distance_km, s', none)
    else if action = "confirm" then
      match s.pending_price with
      | none =>
          (.formError "orders/booking_form.html"
            "Your session expired. Please recalculate the price." form_data,
            { s with pending_price := none }, none)
      | some final_price =>
        let s1 : Session := { s with pending_price := none }
        match db with
        | some e =>
            (.formError "orders/booking_form.html"
              ("Could not save your booking: " ++ e) form_data, s1, none)
        | none =>
          let new_order : BookingRecord :=
            { passenger_name := form_data.passenger_name
              passenger_number := form_data.passenger_number
              passenger_email := form_data.passenger_email
              number_of_passengers := form_data.number_of_passengers
              number_of_bags := form_data.number_of_bags
              pickup_address := pickup
              destination_address := destination
              additional_stop := extra_stop
              flight_number := form_data.flight_number
              pickup_date := form_data.pickup_date
              pickup_time := if form_data.pickup_time = "" then .time 0 0
                             else .s form_data.pickup_time
              limo_service_type := service_type
              baby_seat := has_baby_seat
              return_ride := is_return_ride
              special_instruction := form_data.special_instruction
              vehicle_colour := form_data.vehicle_colour
              wedding_ribbon := form_data.wedding_ribbon
              special_signboard := form_data.special_signboard
              name_on_card := form_data.name_on_card
              card_type := form_data.card_type
              card_number := form_data.card_number
              total_price := final_price }
          let breakdown := s1.pending_breakdown
          let has_tolls := s1.pending_has_tolls.getD false
          let s2 : Session :=
            { s1 with pending_breakdown := none, pending_has_tolls := none }
          (.confirmed "orders/booking_confirmed.html" new_order breakdown
            has_tolls is_return_ride, s2, some new_order)
    else
      (.blank "orders/booking_form.html", s, none)
  else
    (.blank "orders/booking_form.html", s, none)

/-! ### Projections and concrete fixtures used by the theorems -/

/-- Rendered response of a view call. -/
def viewRendered (r : ViewResult) : Rendered := r.1

/-- Session after a view call. -/
def viewSession (r : ViewResult) : Session := r.2.1

/-- Record persisted by a view call, if any. -/
def viewRec (r : ViewResult) : Option BookingRecord := r.2.2

/-- The `final_price` of a rendered preview, if the response is one. -/
def renderedPrice : Rendered → Option ℚ
  | .preview _ _ final_price _ _ _ => some final_price
  | _ => none

/-- The breakdown of a rendered preview, if the response is one. -/
def renderedBreakdown : Rendered → Option Breakdown
  | .preview _ _ _ breakdown _ _ => some breakdown
  | _ => none

/-- The error string of a rendered error form, if the response is one. -/
def renderedError : Rendered → Option String
  | .formError _ e _ => some e
  | _ => none

/-- The empty session (no pending keys). -/
def emptySession : Session := ⟨none, none, none⟩

/-- A healthy Nominatim/OSRM environment: every address geocodes and OSRM
reports a route of `m` metres. -/
def envKm (m : ℚ) : OsrmEnv :=
  { geocode := fun _ => .ok (some (0, 0)), route := fun _ => .ok (some m) }

/-! ### The computed pieces of the calculate branch, named for reuse in
theorem statements. These repeat, term for term, the straight-line code of
the success branch of `calculate` (identical in both views). -/

/-- The running `subtotal` after the three conditional surcharges. -/
def priceSubtotal (conf : RateConf) (distance_km : ℚ)
    (hasStop hasTolls hasBaby : Bool) : ℚ :=
  let sub0 := conf.base + distance_km * conf.per_km
  let sub1 := if hasStop then sub0 + conf.stop else sub0
  let sub2 := if hasTolls then sub1 + 18.50 else sub1
  if hasBaby then sub2 + 20.00 else sub2

/-- `final_price`: the subtotal, doubled when `return_ride`, then rounded. -/
def calcFinal (subtotal : ℚ) (isReturn : Bool) : ℚ :=
  pyRound2 (if isReturn then subtotal * 2 else subtotal)

/-- The `breakdown` dictionary as built in the calculate branch. -/
def mkBreakdown (conf : RateConf) (distance_km : ℚ)
    (hasStop hasTolls hasBaby isReturn : Bool) : Breakdown :=
  { base := conf.base
    distance_km := distance_km
    distance_cost := pyRound2 (distance_km * conf.per_km)
    stop_cost := if hasStop then conf.stop else 0
    toll_cost := if hasTolls then 18.50 else 0
    baby_cost := if hasBaby then 20.00 else 0
    return_multiplier := isReturn
    subtotal_before_return := pyRound2 (priceSubtotal conf distance_km hasStop hasTolls hasBaby) }

/-- The record built by the confirm branch (identical argument lists in the
two views). -/
def mkRecord (today : String) (p : Post) (price : ℚ) : BookingRecord :=
  { passenger_name := (extractForm today p).passenger_name
    passenger_number := (extractForm today p).passenger_number
    passenger_email := (extractForm today p).passenger_email
    number_of_passengers := (extractForm today p).number_of_passengers
    number_of_bags := (extractForm today p).number_of_bags
    pickup_address := pyStrip p.pickup_address
    destination_address := pyStrip p.destination_address
    additional_stop := stripOrNone p.additional_stop
    flight_number := (extractForm today p).flight_number
    pickup_date := (extractForm today p).pickup_date
    pickup_time := if (extractForm today p).pickup_time = "" then .time 0 0
                   else .s (extractForm today p).pickup_time
    limo_service_type := p.limo_service_type.getD "Sedan 1-5"
    baby_seat := p.baby_seat
    return_ride := p.return_ride
    special_instruction := (extractForm today p).special_instruction
    vehicle_colour := (extractForm today p).vehicle_colour
    wedding_ribbon := (extractForm today p).wedding_ribbon
    special_signboard := (extractForm today p).special_signboard
    name_on_card := (extractForm today p).name_on_card
    card_type := (extractForm today p).card_type
    card_number := (extractForm today p).card_number
    total_price := price }

/-- A POST body with every field empty or defaulted. -/
def blankPost : Post :=
  { action := none, passenger_name := "", passenger_number := ""
    passenger_email := "", number_of_passengers := none
    number_of_bags := none, pickup_address := "", destination_address := ""
    additional_stop := "", flight_number := "", pickup_date := none
    pickup_time := "", limo_service_type := none, baby_seat := false
    return_ride := false, has_tolls := false, special_instruction := ""
    vehicle_colour := "", wedding_ribbon := "", special_signboard := ""
    name_on_card := "", card_type := "", card_number := "", extra := [] }

/-! ### Branch characterizations of the two views -/

/-- The effective tier string and rate row of a POST body. -/
def postConf (p : Post) : RateConf := rates_get (p.limo_service_type.getD "Sedan 1-5")

/-- The subtotal the calculate branch computes for POST body `p` at
distance `d` with toll flag `tolls`. -/
def postSubtotal (p : Post) (d : ℚ) (tolls : Bool) : ℚ :=
  priceSubtotal (postConf p) d (stripOrNone p.additional_stop).isSome tolls p.baby_seat

lemma bookings_calc_ok (env : OsrmEnv) (db : Option String) (today : String)
    (p : Post) (s : Session) (d : ℚ)
    (ha : p.action.getD "calculate" = "calculate")
    (hr : get_route env (pyStrip p.pickup_address) (pyStrip p.destination_address)
            (stripOrNone p.additional_stop) = .ok d) :
    bookings env db today true p s =
      (.preview "orders/booking_summary_preview.html" (extractForm today p)
        (calcFinal (postSubtotal p d p.has_tolls) p.return_ride)
        (mkBreakdown (postConf p) d (stripOrNone p.additional_stop).isSome
          p.has_tolls p.baby_seat p.return_ride)
        p.has_tolls d,
       ⟨some (calcFinal (postSubtotal p d p.has_tolls) p.return_ride),
        some (mkBreakdown (postConf p) d (stripOrNone p.additional_stop).isSome
          p.has_tolls p.baby_seat p.return_ride),
        some p.has_tolls⟩,
       none) := by
  simp [bookings, ha, hr, calcFinal, postSubtotal, priceSubtotal, mkBreakdown, postConf]

lemma bookings_calc_valueError (env : OsrmEnv) (db : Option String)
    (today : String) (p : Post) (s : Session) (msg : String)
    (ha : p.action.getD "calculate" = "calculate")
    (hr : get_route env (pyStrip p.pickup_address) (pyStrip p.destination_address)
            (stripOrNone p.additional_stop) = .error (.valueError msg)) :
    bookings env db today true p s =
      (.formError "bookings/booking_form.html" msg (extractForm today p), s, none) := by
  simp [bookings, ha, hr]

lemma bookings_calc_network (env : OsrmEnv) (db : Option String)
    (today : String) (p : Post) (s : Session)
    (ha : p.action.getD "calculate" = "calculate")
    (hr : get_route env (pyStrip p.pickup_address) (pyStrip p.destination_address)
            (stripOrNone p.additional_stop) = .error .requestException) :
    bookings env db today true p s =
      (.formError "bookings/booking_form.html"
        "Could not connect to the routing service. Please check your addresses and try again."
        (extractForm today p), s, none) := by
  simp [bookings, ha, hr]

lemma bookings_confirm_expired (env : OsrmEnv) (db : Option String)
    (today : String) (p : Post) (s : Session)
    (ha : p.action.getD "calculate" = "confirm")
    (hp : s.pending_price = none) :
    bookings env db today true p s =
      (.formError "bookings/booking_form.html"
        "Your session expired. Please fill in the form again." (extractForm today p),
       { s with pending_price := none }, none) := by
  simp [bookings, ha, hp]

lemma bookings_confirm_dbfail (env : OsrmEnv) (e : String) (today : String)
    (p : Post) (s : Session) (price : ℚ)
    (ha : p.action.getD "calculate" = "confirm")
    (hp : s.pending_price = some price) :
    bookings env (some e) today true p s =
      (.formError "bookings/booking_form.html"
        ("Could not save your booking: " ++ e) (extractForm today p),
       { s with pending_price := none }, none) := by
  simp [bookings, ha, hp]

lemma bookings_confirm_ok (env : OsrmEnv) (today : String) (p : Post)
    (s : Session) (price : ℚ)
    (ha : p.action.getD "calculate" = "confirm")
    (hp : s.pending_price = some price) :
    bookings env none today true p s =
      (.confirmed "orders/booking_confirmed.html" (mkRecord today p price)
        s.pending_breakdown (s.pending_has_tolls.getD false) p.return_ride,
       ⟨none, none, none⟩, some (mkRecord today p price)) := by
  simp [bookings, ha, hp, mkRecord]

/-- Total metres of a Google Maps leg list. -/
def legsMeters (legs : List GLeg) : ℤ :=
  (legs.map (fun leg => leg.distance_value)).sum

/-- The toll scan of the orders view: any step of any leg mentions
`"Toll road"`. -/
def legsTolls (legs : List GLeg) : Bool :=
  legs.any (fun leg => leg.steps.any (fun step => hasTollMarker step))

lemma orders_calc_ok (dirs : GDirections) (db : Option String) (today : String)
    (p : Post) (s : Session) (legs : List GLeg) (rest : List (List GLeg))
    (ha : p.action.getD "calculate" = "calculate")
    (hr : dirs (pyStrip p.pickup_address) (pyStrip p.destination_address)
            (stripOrNone p.additional_stop) = .ok (legs :: rest)) :
    orders dirs db today true p s =
      (.preview "orders/booking_summary_preview.html" (extractForm today p)
        (calcFinal (postSubtotal p (pyRound2 ((legsMeters legs : ℚ) / 1000)) (legsTolls legs))
          p.return_ride)
        (mkBreakdown (postConf p) (pyRound2 ((legsMeters legs : ℚ) / 1000))
          (stripOrNone p.additional_stop).isSome (legsTolls legs) p.baby_seat p.return_ride)
        (legsTolls legs) (pyRound2 ((legsMeters legs : ℚ) / 1000)),
       ⟨some (calcFinal (postSubtotal p (pyRound2 ((legsMeters legs : ℚ) / 1000)) (legsTolls legs))
          p.return_ride),
        some (mkBreakdown (postConf p) (pyRound2 ((legsMeters legs : ℚ) / 1000))
          (stripOrNone p.additional_stop).isSome (legsTolls legs) p.baby_seat p.return_ride),
        some (legsTolls legs)⟩,
       none) := by
  simp [orders, ha, hr, calcFinal, postSubtotal, priceSubtotal, mkBreakdown, postConf,
    legsMeters, legsTolls]

lemma orders_calc_error (dirs : GDirections) (db : Option String)
    (today : String) (p : Post) (s : Session) (e : String)
    (ha : p.action.getD "calculate" = "calculate")
    (hr : dirs (pyStrip p.pickup_address) (pyStrip p.destination_address)
            (stripOrNone p.additional_stop) = .error e) :
    orders dirs db today true p s =
      (.formError "orders/booking_form.html" ("Route calculation failed: " ++ e)
        (extractForm today p), s, none) := by
  simp [orders, ha, hr]

lemma orders_calc_emptyRoutes (dirs : GDirections) (db : Option String)
    (today : String) (p : Post) (s : Session)
    (ha : p.action.getD "calculate" = "calculate")
    (hr : dirs (pyStrip p.pickup_address) (pyStrip p.destination_address)
            (stripOrNone p.additional_stop) = .ok []) :
    orders dirs db today true p s =
      (.formError "orders/booking_form.html"
        ("Route calculation failed: " ++ "list index out of range")
        (extractForm today p), s, none) := by
  simp [orders, ha, hr]

lemma orders_confirm_expired (dirs : GDirections) (db : Option String)
    (today : String) (p : Post) (s : Session)
    (ha : p.action.getD "calculate" = "confirm")
    (hp : s.pending_price = none) :
    orders dirs db today true p s =
      (.formError "orders/booking_form.html"
        "Your session expired. Please recalculate the price." (extractForm today p),
       { s with pending_price := none }, none) := by
  simp [orders, ha, hp]

lemma orders_confirm_dbfail (dirs : GDirections) (e : String) (today : String)
    (p : Post) (s : Session) (price : ℚ)
    (ha : p.action.getD "calculate" = "confirm")
    (hp : s.pending_price = some price) :
    orders dirs (some e) today true p s =
      (.formError "orders/booking_form.html"
        ("Could not save your booking: " ++ e) (extractForm today p),
       { s with pending_price := none }, none) := by
  simp [orders, ha, hp]

lemma orders_confirm_ok (dirs : GDirections) (today : String) (p : Post)
    (s : Session) (price : ℚ)
    (ha : p.action.getD "calculate" = "confirm")
    (hp : s.pending_price = some price) :
    orders dirs none today true p s =
      (.confirmed "orders/booking_confirmed.html" (mkRecord today p price)
        s.pending_breakdown (s.pending_has_tolls.getD false) p.return_ride,
       ⟨none, none, none⟩, some (mkRecord today p price)) := by
  simp [orders, ha, hp, mkRecord]

/-! ### Concrete fixtures -/

/-- A calculate submission: tier `Sedan 1-5`, pickup `A`, destination `B`,
no extras. -/
def c1post : Post :=
  { blankPost with
    action := some "calculate", pickup_address := "A"
    destination_address := "B", limo_service_type := some "Sedan 1-5" }

/-- A Nominatim/OSRM environment where every outbound call fails at the
network level (`requests.RequestException`). -/
def envNet : OsrmEnv :=
  { geocode := fun _ => .error (), route := fun _ => .error () }

/-- In the healthy environment `envKm m`, `get_route` always returns
`m / 1000` km rounded to two decimals, whatever the addresses. -/
lemma envKm_route (m : ℚ) (a b : String) (w : Option String) :
    get_route (envKm m) a b w = .ok (pyRound2 (m / 1000)) := by
  cases w <;> simp [get_route, envKm, get_route_osrm]

lemma pyRound2_10000 : pyRound2 (10000 / 1000) = 10 := by
  norm_num [pyRound2, roundHalfEven]

lemma pyRound2_20000 : pyRound2 (20000 / 1000) = 20 := by
  norm_num [pyRound2, roundHalfEven]

lemma pyRound2_10 : pyRound2 (10 / 1000) = 1/100 := by
  norm_num [pyRound2, roundHalfEven]

lemma stripOrNone_empty : stripOrNone "" = none := by decide

lemma stripOrNone_C : stripOrNone "C" = some "C" := by decide

lemma rates_get_sedan : rates_get "Sedan 1-5" = ⟨30.00, 3.50, 15.00⟩ := rfl

lemma rates_get_suv : rates_get "SUV 1-7" = ⟨55.00, 5.50, 25.00⟩ := rfl

lemma rates_get_stretch : rates_get "Stretch 1-13" = ⟨135.00, 9.50, 65.00⟩ := rfl

/-! ### Claims -/

/-- C1: for every tier, distance and flag combination, `calculate` prices
the trip as `base + distance_km * per_km`, plus the tier's stop fee when an
extra stop is given, plus 18.50 for tolls, plus 20.00 for a baby seat,
doubling the full subtotal (surcharges included) exactly when
`return_ride` is set, rounded to two decimals; in particular Sedan 1-5 at
10.0 km one-way is 65.00, the same trip with return is 130.00, and
SUV 1-7 at 20.0 km with stop, tolls and baby seat one-way is 228.50. -/
theorem C1_calculate_price_formula :
    (∀ (env : OsrmEnv) (db : Option String) (today : String) (p : Post)
        (s : Session) (d : ℚ),
      p.action.getD "calculate" = "calculate" →
      get_route env (pyStrip p.pickup_address) (pyStrip p.destination_address)
          (stripOrNone p.additional_stop) = .ok d →
      renderedPrice (viewRendered (bookings env db today true p s)) =
        some (pyRound2
          (((rates_get (p.limo_service_type.getD "Sedan 1-5")).base
            + d * (rates_get (p.limo_service_type.getD "Sedan 1-5")).per_km
            + (if (stripOrNone p.additional_stop).isSome
               then (rates_get (p.limo_service_type.getD "Sedan 1-5")).stop else 0)
            + (if p.has_tolls then 18.50 else 0)
            + (if p.baby_seat then 20.00 else 0))
           * (if p.return_ride then 2 else 1))))
    ∧ renderedPrice (viewRendered
        (bookings (envKm 10000) none "2026-01-01" true c1post emptySession)) = some 65
    ∧ renderedPrice (viewRendered
        (bookings (envKm 10000) none "2026-01-01" true
          { c1post with return_ride := true } emptySession)) = some 130
    ∧ renderedPrice (viewRendered
        (bookings (envKm 20000) none "2026-01-01" true
          { c1post with
            limo_service_type := some "SUV 1-7", additional_stop := "C"
            has_tolls := true, baby_seat := true } emptySession)) = some 228.50 := by
  refine ⟨?_, ?_, ?_, ?_⟩
  · intro env db today p s d ha hr
    rw [bookings_calc_ok env db today p s d ha hr]
    simp only [viewRendered, renderedPrice, Option.some.injEq, calcFinal,
      postSubtotal, priceSubtotal, postConf]
    congr 1
    split_ifs <;> ring
  · have ha : c1post.action.getD "calculate" = "calculate" := rfl
    have hr : get_route (envKm 10000) (pyStrip c1post.pickup_address)
        (pyStrip c1post.destination_address) (stripOrNone c1post.additional_stop) = .ok 10 := by
      rw [envKm_route, pyRound2_10000]
    rw [bookings_calc_ok _ _ _ _ _ _ ha hr]
    simp only [viewRendered, renderedPrice, Option.some.injEq, calcFinal,
      postSubtotal, priceSubtotal, postConf, c1post, blankPost, stripOrNone_empty]
    norm_num [pyRound2, roundHalfEven, rates_get]
  · have ha : ({ c1post with return_ride := true } : Post).action.getD "calculate" = "calculate" := rfl
    have hr : get_route (envKm 10000)
        (pyStrip ({ c1post with return_ride := true } : Post).pickup_address)
        (pyStrip ({ c1post with return_ride := true } : Post).destination_address)
        (stripOrNone ({ c1post with return_ride := true } : Post).additional_stop) = .ok 10 := by
      rw [envKm_route, pyRound2_10000]
    rw [bookings_calc_ok _ _ _ _ _ _ ha hr]
    simp only [viewRendered, renderedPrice, Option.some.injEq, calcFinal,
      postSubtotal, priceSubtotal, postConf, c1post, blankPost, stripOrNone_empty]
    norm_num [pyRound2, roundHalfEven, rates_get]
  · have ha : ({ c1post with
        limo_service_type := some "SUV 1-7", additional_stop := "C"
        has_tolls := true, baby_seat := true } : Post).action.getD "calculate" = "calculate" := rfl
    have hr : get_route (envKm 20000)
        (pyStrip ({ c1post with
          limo_service_type := some "SUV 1-7", additional_stop := "C"
          has_tolls := true, baby_seat := true } : Post).pickup_address)
        (pyStrip ({ c1post with
          limo_service_type := some "SUV 1-7", additional_stop := "C"
          has_tolls := true, baby_seat := true } : Post).destination_address)
        (stripOrNone ({ c1post with
          limo_service_type := some "SUV 1-7", additional_stop := "C"
          has_tolls := true, baby_seat := true } : Post).additional_stop) = .ok 20 := by
      rw [envKm_route, pyRound2_20000]
    rw [bookings_calc_ok _ _ _ _ _ _ ha hr]
    simp only [viewRendered, renderedPrice, Option.some.injEq, calcFinal,
      postSubtotal, priceSubtotal, postConf, c1post, blankPost, stripOrNone_C,
      Option.getD_some, rates_get_suv]
    norm_num [pyRound2, roundHalfEven]

/-- Closed witness for C1: the quantified conjunct instantiated at the
Sedan example. -/
theorem C1_calculate_price_formula_witness :
    renderedPrice (viewRendered
      (bookings (envKm 10000) none "2026-01-01" true c1post emptySession)) =
      some (pyRound2
        (((rates_get (c1post.limo_service_type.getD "Sedan 1-5")).base
          + 10 * (rates_get (c1post.limo_service_type.getD "Sedan 1-5")).per_km
          + (if (stripOrNone c1post.additional_stop).isSome
             then (rates_get (c1post.limo_service_type.getD "Sedan 1-5")).stop else 0)
          + (if c1post.has_tolls then 18.50 else 0)
          + (if c1post.baby_seat then 20.00 else 0))
         * (if c1post.return_ride then 2 else 1))) := by
  refine C1_calculate_price_formula.1 (envKm 10000) none "2026-01-01" c1post emptySession 10 rfl ?_
  rw [envKm_route, pyRound2_10000]

/-- A confirm submission with pickup `A` and destination `B`. -/
def c2post : Post :=
  { blankPost with
    action := some "confirm", pickup_address := "A"
    destination_address := "B" }

/-- C2: the `total_price` persisted by `confirm` is exactly the
`pending_price` popped from the server-side session, and two confirm
submissions differing only in fields the views never read (any
client-supplied price-like fields) behave identically — no client-submitted
value influences the persisted price. Holds in both variants. -/
theorem C2_confirm_price_tamper_proof :
    (∀ (env : OsrmEnv) (db : Option String) (today : String) (p : Post)
        (s : Session) (price : ℚ) (r : BookingRecord),
      p.action.getD "calculate" = "confirm" →
      s.pending_price = some price →
      viewRec (bookings env db today true p s) = some r →
      r.total_price = price)
    ∧ (∀ (env : OsrmEnv) (db : Option String) (today : String) (p : Post)
        (s : Session) (e2 : List (String × String)),
      bookings env db today true p s = bookings env db today true { p with extra := e2 } s)
    ∧ (∀ (dirs : GDirections) (db : Option String) (today : String) (p : Post)
        (s : Session) (price : ℚ) (r : BookingRecord),
      p.action.getD "calculate" = "confirm" →
      s.pending_price = some price →
      viewRec (orders dirs db today true p s) = some r →
      r.total_price = price)
    ∧ (∀ (dirs : GDirections) (db : Option String) (today : String) (p : Post)
        (s : Session) (e2 : List (String × String)),
      orders dirs db today true p s = orders dirs db today true { p with extra := e2 } s) := by
  refine ⟨?_, fun _ _ _ _ _ _ => rfl, ?_, fun _ _ _ _ _ _ => rfl⟩
  · intro env db today p s price r ha hp hrec
    match db with
    | none =>
      rw [bookings_confirm_ok env today p s price ha hp] at hrec
      simp only [viewRec, Option.some.injEq] at hrec
      rw [← hrec]
      rfl
    | some e =>
      rw [bookings_confirm_dbfail env e today p s price ha hp] at hrec
      simp [viewRec] at hrec
  · intro dirs db today p s price r ha hp hrec
    match db with
    | none =>
      rw [orders_confirm_ok dirs today p s price ha hp] at hrec
      simp only [viewRec, Option.some.injEq] at hrec
      rw [← hrec]
      rfl
    | some e =>
      rw [orders_confirm_dbfail dirs e today p s price ha hp] at hrec
      simp [viewRec] at hrec

/-- Closed witness for C2: a confirm run whose session holds 65.00
persists exactly 65.00. -/
theorem C2_confirm_price_tamper_proof_witness :
    (mkRecord "2026-01-01" c2post 65).total_price = 65 :=
  C2_confirm_price_tamper_proof.1 (envKm 10000) none "2026-01-01" c2post
    ⟨some 65, none, none⟩ 65 (mkRecord "2026-01-01" c2post 65) rfl rfl
    (by rw [bookings_confirm_ok (envKm 10000) "2026-01-01" c2post _ 65 rfl rfl]; rfl)

/-- C3: `confirm` with no `pending_price` in the session fails with the
session-expired error and persists nothing; and since `pending_price` is
popped (read-once), a second confirm straight after a successful one also
fails with the session-expired error. Holds in both variants. -/
theorem C3_confirm_pop_semantics :
    (∀ (env : OsrmEnv) (db : Option String) (today : String) (p : Post) (s : Session),
      p.action.getD "calculate" = "confirm" → s.pending_price = none →
      bookings env db today true p s =
        (.formError "bookings/booking_form.html"
          "Your session expired. Please fill in the form again." (extractForm today p),
         { s with pending_price := none }, none))
    ∧ (∀ (env : OsrmEnv) (today : String) (p : Post) (s : Session) (price : ℚ),
      p.action.getD "calculate" = "confirm" → s.pending_price = some price →
      viewRec (bookings env none today true p s) = some (mkRecord today p price)
      ∧ ∀ (env2 : OsrmEnv) (db2 : Option String) (today2 : String) (p2 : Post),
          p2.action.getD "calculate" = "confirm" →
          bookings env2 db2 today2 true p2 (viewSession (bookings env none today true p s)) =
            (.formError "bookings/booking_form.html"
              "Your session expired. Please fill in the form again." (extractForm today2 p2),
             ⟨none, none, none⟩, none))
    ∧ (∀ (dirs : GDirections) (db : Option String) (today : String) (p : Post) (s : Session),
      p.action.getD "calculate" = "confirm" → s.pending_price = none →
      orders dirs db today true p s =
        (.formError "orders/booking_form.html"
          "Your session expired. Please recalculate the price." (extractForm today p),
         { s with pending_price := none }, none))
    ∧ (∀ (dirs : GDirections) (today : String) (p : Post) (s : Session) (price : ℚ),
      p.action.getD "calculate" = "confirm" → s.pending_price = some price →
      viewRec (orders dirs none today true p s) = some (mkRecord today p price)
      ∧ ∀ (dirs2 : GDirections) (db2 : Option String) (today2 : String) (p2 : Post),
          p2.action.getD "calculate" = "confirm" →
          orders dirs2 db2 today2 true p2 (viewSession (orders dirs none today true p s)) =
            (.formError "orders/booking_form.html"
              "Your session expired. Please recalculate the price." (extractForm today2 p2),
             ⟨none, none, none⟩, none)) := by
  refine ⟨?_, ?_, ?_, ?_⟩
  · intro env db today p s ha hp
    exact bookings_confirm_expired env db today p s ha hp
  · intro env today p s price ha hp
    rw [bookings_confirm_ok env today p s price ha hp]
    refine ⟨rfl, ?_⟩
    intro env2 db2 today2 p2 ha2
    have h := bookings_confirm_expired env2 db2 today2 p2 ⟨none, none, none⟩ ha2 rfl
    simpa using h
  · intro dirs db today p s ha hp
    exact orders_confirm_expired dirs db today p s ha hp
  · intro dirs today p s price ha hp
    rw [orders_confirm_ok dirs today p s price ha hp]
    refine ⟨rfl, ?_⟩
    intro dirs2 db2 today2 p2 ha2
    have h := orders_confirm_expired dirs2 db2 today2 p2 ⟨none, none, none⟩ ha2 rfl
    simpa using h

/-- Closed witness for C3: confirm on an empty session renders the
session-expired error, leaves the session empty and persists nothing. -/
theorem C3_confirm_pop_semantics_witness :
    bookings (envKm 10000) none "2026-01-01" true c2post emptySession =
      (.formError "bookings/booking_form.html"
        "Your session expired. Please fill in the form again."
        (extractForm "2026-01-01" c2post),
       { emptySession with pending_price := none }, none) :=
  C3_confirm_pop_semantics.1 (envKm 10000) none "2026-01-01" c2post emptySession rfl rfl

/-- Counterexample to C4: a 10-metre Sedan return ride. The unrounded
subtotal is 30.035, so the displayed `subtotal_before_return` rounds to
30.04 while `final_price = round(60.07, 2) = 60.07 ≠ 2 * 30.04`: the
subtotal used for doubling is not rounded at the point of computation. -/
theorem C4_counterexample :
    renderedPrice (viewRendered (bookings (envKm 10) none "2026-01-01" true
        { c1post with return_ride := true } emptySession)) ≠
      (renderedBreakdown (viewRendered (bookings (envKm 10) none "2026-01-01" true
        { c1post with return_ride := true } emptySession))).map
        (fun b => b.subtotal_before_return * 2) := by
  have ha : ({ c1post with return_ride := true } : Post).action.getD "calculate" = "calculate" := rfl
  have hr : get_route (envKm 10)
      (pyStrip ({ c1post with return_ride := true } : Post).pickup_address)
      (pyStrip ({ c1post with return_ride := true } : Post).destination_address)
      (stripOrNone ({ c1post with return_ride := true } : Post).additional_stop) =
        .ok (1/100) := by
    rw [envKm_route, pyRound2_10]
  rw [bookings_calc_ok _ _ _ _ _ _ ha hr]
  simp only [viewRendered, renderedPrice, renderedBreakdown, Option.map_some,
    ne_eq, Option.some.injEq, calcFinal, postSubtotal, priceSubtotal, postConf,
    mkBreakdown, c1post, blankPost, stripOrNone_empty, Option.getD_some,
    rates_get_sedan]
  norm_num [pyRound2, roundHalfEven]

/-- C4 amended: only `final_price` (and the display fields of the
breakdown) are rounded; `final_price = round2(subtotal * (2 if return
else 1))` over the **unrounded** subtotal, and `subtotal_before_return` is
the rounded subtotal, so `final_price = subtotal_before_return` holds for
one-way rides, but with `return_ride` the final price is the rounding of
the doubled raw subtotal, which can differ from
`2 * subtotal_before_return` by a cent. Holds in both variants. -/
theorem C4_rounding_amended :
    (∀ (env : OsrmEnv) (db : Option String) (today : String) (p : Post)
        (s : Session) (d : ℚ),
      p.action.getD "calculate" = "calculate" →
      get_route env (pyStrip p.pickup_address) (pyStrip p.destination_address)
          (stripOrNone p.additional_stop) = .ok d →
      renderedPrice (viewRendered (bookings env db today true p s)) =
        some (pyRound2 ((if p.return_ride then 2 else 1) * postSubtotal p d p.has_tolls))
      ∧ (renderedBreakdown (viewRendered (bookings env db today true p s))).map
          (fun b => b.subtotal_before_return) =
            some (pyRound2 (postSubtotal p d p.has_tolls))
      ∧ (p.return_ride = false →
          renderedPrice (viewRendered (bookings env db today true p s)) =
            (renderedBreakdown (viewRendered (bookings env db today true p s))).map
              (fun b => b.subtotal_before_return)))
    ∧ (∀ (dirs : GDirections) (db : Option String) (today : String) (p : Post)
        (s : Session) (legs : List GLeg) (rest : List (List GLeg)),
      p.action.getD "calculate" = "calculate" →
      dirs (pyStrip p.pickup_address) (pyStrip p.destination_address)
          (stripOrNone p.additional_stop) = .ok (legs :: rest) →
      renderedPrice (viewRendered (orders dirs db today true p s)) =
        some (pyRound2 ((if p.return_ride then 2 else 1) *
          postSubtotal p (pyRound2 ((legsMeters legs : ℚ) / 1000)) (legsTolls legs)))
      ∧ (p.return_ride = false →
          renderedPrice (viewRendered (orders dirs db today true p s)) =
            (renderedBreakdown (viewRendered (orders dirs db today true p s))).map
              (fun b => b.subtotal_before_return))) := by
  constructor
  · intro env db today p s d ha hr
    rw [bookings_calc_ok env db today p s d ha hr]
    refine ⟨?_, ?_, ?_⟩
    · simp only [viewRendered, renderedPrice, Option.some.injEq, calcFinal]
      congr 1
      cases hret : p.return_ride <;> simp [mul_comm]
    · simp [viewRendered, renderedBreakdown, mkBreakdown, postSubtotal]
    · intro hret
      simp [viewRendered, renderedPrice, renderedBreakdown, mkBreakdown,
        calcFinal, postSubtotal, hret]
  · intro dirs db today p s legs rest ha hr
    rw [orders_calc_ok dirs db today p s legs rest ha hr]
    constructor
    · simp only [viewRendered, renderedPrice, Option.some.injEq, calcFinal]
      congr 1
      cases hret : p.return_ride <;> simp [mul_comm]
    · intro hret
      simp [viewRendered, renderedPrice, renderedBreakdown, mkBreakdown,
        calcFinal, postSubtotal, hret]

/-- Closed witness for C4 amended: the one-way Sedan example, where the
final price equals the rounded subtotal shown in the breakdown. -/
theorem C4_rounding_amended_witness :
    renderedPrice (viewRendered
      (bookings (envKm 10000) none "2026-01-01" true c1post emptySession)) =
      some (pyRound2 ((if c1post.return_ride then 2 else 1) *
        postSubtotal c1post 10 c1post.has_tolls)) :=
  (C4_rounding_amended.1 (envKm 10000) none "2026-01-01" c1post emptySession 10
    rfl (by rw [envKm_route, pyRound2_10000])).1

/-- The error string the bookings view renders for each `get_route`
failure: the `ValueError` message itself, or the fixed connection message
for `requests.RequestException`. -/
def bookErrMsg : GrErr → String
  | .valueError msg => msg
  | .requestException =>
      "Could not connect to the routing service. Please check your addresses and try again."

/-- In the all-failing environment `envNet`, `get_route` always raises
`requests.RequestException`. -/
lemma envNet_route (a b : String) (w : Option String) :
    get_route envNet a b w = .error .requestException := by
  simp [get_route, envNet]

/-- C5: any resolver failure during `calculate` aborts atomically — the
session is returned unchanged (no pending key written), nothing is
persisted, and the form is re-rendered with a human-readable error and the
extracted field values echoed back. Holds in both variants. -/
theorem C5_resolver_failure_atomic :
    (∀ (env : OsrmEnv) (db : Option String) (today : String) (p : Post)
        (s : Session) (err : GrErr),
      p.action.getD "calculate" = "calculate" →
      get_route env (pyStrip p.pickup_address) (pyStrip p.destination_address)
          (stripOrNone p.additional_stop) = .error err →
      bookings env db today true p s =
        (.formError "bookings/booking_form.html" (bookErrMsg err)
          (extractForm today p), s, none))
    ∧ (∀ (dirs : GDirections) (db : Option String) (today : String) (p : Post)
        (s : Session) (e : String),
      p.action.getD "calculate" = "calculate" →
      dirs (pyStrip p.pickup_address) (pyStrip p.destination_address)
          (stripOrNone p.additional_stop) = .error e →
      orders dirs db today true p s =
        (.formError "orders/booking_form.html" ("Route calculation failed: " ++ e)
          (extractForm today p), s, none)) := by
  constructor
  · intro env db today p s err ha hr
    match err with
    | .valueError msg => exact bookings_calc_valueError env db today p s msg ha hr
    | .requestException => exact bookings_calc_network env db today p s ha hr
  · intro dirs db today p s e ha hr
    exact orders_calc_error dirs db today p s e ha hr

/-- Closed witness for C5: a network failure leaves the session untouched
and persists nothing. -/
theorem C5_resolver_failure_atomic_witness :
    bookings envNet none "2026-01-01" true c1post emptySession =
      (.formError "bookings/booking_form.html" (bookErrMsg .requestException)
        (extractForm "2026-01-01" c1post), emptySession, none) :=
  C5_resolver_failure_atomic.1 envNet none "2026-01-01" c1post emptySession
    .requestException rfl (envNet_route _ _ _)

/-- Counterexample to C6: in the bookings variant a network-level failure
is rendered with the message "Could not connect to the routing service.
Please check your addresses and try again." — which contains the
address-correction phrase "check your addresses", contradicting the claim
that a network failure never surfaces as an address-correction message. -/
theorem C6_counterexample :
    renderedError (viewRendered
      (bookings envNet none "2026-01-01" true c1post emptySession)) =
      some "Could not connect to the routing service. Please check your addresses and try again."
    ∧ pyContains "check your addresses"
        "Could not connect to the routing service. Please check your addresses and try again." = true := by
  constructor
  · rw [bookings_calc_network envNet none "2026-01-01" c1post emptySession rfl
      (envNet_route _ _ _)]
    rfl
  · decide

/-- C6 amended: the bookings variant does map the three provider failure
modes to three distinct fixed message shapes (geocode miss → "Address not
found: ..."; route status not Ok → the OSRM message; network error → the
connection message), but the connection message also advises checking the
addresses; the orders variant collapses every failure into the single
wrapper "Route calculation failed: <exception text>". -/
theorem C6_error_classes_amended :
    (∀ (env : OsrmEnv) (db : Option String) (today : String) (p : Post) (s : Session),
      p.action.getD "calculate" = "calculate" →
      env.geocode (pyStrip p.pickup_address) = .error () →
      bookings env db today true p s =
        (.formError "bookings/booking_form.html"
          "Could not connect to the routing service. Please check your addresses and try again."
          (extractForm today p), s, none))
    ∧ (∀ (env : OsrmEnv) (db : Option String) (today : String) (p : Post) (s : Session),
      p.action.getD "calculate" = "calculate" →
      env.geocode (pyStrip p.pickup_address) = .ok none →
      bookings env db today true p s =
        (.formError "bookings/booking_form.html"
          ("Address not found: " ++ pyStrip p.pickup_address)
          (extractForm today p), s, none))
    ∧ (∀ (env : OsrmEnv) (db : Option String) (today : String) (p : Post)
        (s : Session) (c : ℚ × ℚ),
      p.action.getD "calculate" = "calculate" →
      (∀ a, env.geocode a = .ok (some c)) →
      (∀ cs, env.route cs = .ok none) →
      bookings env db today true p s =
        (.formError "bookings/booking_form.html"
          "OSRM could not calculate a route for the given addresses."
          (extractForm today p), s, none))
    ∧ (∀ (dirs : GDirections) (db : Option String) (today : String) (p : Post)
        (s : Session) (e : String),
      p.action.getD "calculate" = "calculate" →
      dirs (pyStrip p.pickup_address) (pyStrip p.destination_address)
          (stripOrNone p.additional_stop) = .error e →
      orders dirs db today true p s =
        (.formError "orders/booking_form.html" ("Route calculation failed: " ++ e)
          (extractForm today p), s, none)) := by
  refine ⟨?_, ?_, ?_, ?_⟩
  · intro env db today p s ha hgeo
    refine bookings_calc_network env db today p s ha ?_
    simp [get_route, hgeo]
  · intro env db today p s ha hgeo
    refine bookings_calc_valueError env db today p s _ ha ?_
    simp [get_route, hgeo]
  · intro env db today p s c ha hgeo hroute
    refine bookings_calc_valueError env db today p s _ ha ?_
    cases hw : stripOrNone p.additional_stop <;>
      simp [get_route, get_route_osrm, hgeo, hroute, hw]
  · intro dirs db today p s e ha hr
    exact orders_calc_error dirs db today p s e ha hr

/-- Closed witness for C6 amended: the network case at a concrete input. -/
theorem C6_error_classes_amended_witness :
    bookings envNet none "2026-01-01" true c1post emptySession =
      (.formError "bookings/booking_form.html"
        "Could not connect to the routing service. Please check your addresses and try again."
        (extractForm "2026-01-01" c1post), emptySession, none) :=
  C6_error_classes_amended.1 envNet none "2026-01-01" c1post emptySession rfl rfl

/-- `rates.get` falls back to the `Sedan 1-5` row for any unrecognized
tier string. -/
lemma rates_get_default (t : String) (h1 : t ≠ "Sedan 1-5")
    (h2 : t ≠ "SUV 1-7") (h3 : t ≠ "Stretch 1-13") :
    rates_get t = ⟨30.00, 3.50, 15.00⟩ := by
  simp [rates_get, h1, h2, h3]

/-- C7: a `limo_service_type` outside the three-tier set is not rejected:
`calculate` still renders a priced preview, using the default `Sedan 1-5`
rates (base 30.00, per-km 3.50, stop 15.00). Holds in both variants. -/
theorem C7_unknown_tier_defaults_to_sedan :
    (∀ t : String, t ≠ "Sedan 1-5" → t ≠ "SUV 1-7" → t ≠ "Stretch 1-13" →
      rates_get t = ⟨30.00, 3.50, 15.00⟩)
    ∧ (∀ (env : OsrmEnv) (db : Option String) (today : String) (p : Post)
        (s : Session) (d : ℚ) (t : String),
      p.limo_service_type = some t →
      t ≠ "Sedan 1-5" → t ≠ "SUV 1-7" → t ≠ "Stretch 1-13" →
      p.action.getD "calculate" = "calculate" →
      get_route env (pyStrip p.pickup_address) (pyStrip p.destination_address)
          (stripOrNone p.additional_stop) = .ok d →
      renderedPrice (viewRendered (bookings env db today true p s)) =
        some (calcFinal (priceSubtotal ⟨30.00, 3.50, 15.00⟩ d
          (stripOrNone p.additional_stop).isSome p.has_tolls p.baby_seat)
          p.return_ride))
    ∧ (∀ (dirs : GDirections) (db : Option String) (today : String) (p : Post)
        (s : Session) (legs : List GLeg) (rest : List (List GLeg)) (t : String),
      p.limo_service_type = some t →
      t ≠ "Sedan 1-5" → t ≠ "SUV 1-7" → t ≠ "Stretch 1-13" →
      p.action.getD "calculate" = "calculate" →
      dirs (pyStrip p.pickup_address) (pyStrip p.destination_address)
          (stripOrNone p.additional_stop) = .ok (legs :: rest) →
      renderedPrice (viewRendered (orders dirs db today true p s)) =
        some (calcFinal (priceSubtotal ⟨30.00, 3.50, 15.00⟩
          (pyRound2 ((legsMeters legs : ℚ) / 1000))
          (stripOrNone p.additional_stop).isSome (legsTolls legs) p.baby_seat)
          p.return_ride)) := by
  refine ⟨rates_get_default, ?_, ?_⟩
  · intro env db today p s d t hlimo h1 h2 h3 ha hr
    rw [bookings_calc_ok env db today p s d ha hr]
    simp [viewRendered, renderedPrice, postSubtotal, postConf, hlimo,
      rates_get_default t h1 h2 h3]
  · intro dirs db today p s legs rest t hlimo h1 h2 h3 ha hr
    rw [orders_calc_ok dirs db today p s legs rest ha hr]
    simp [viewRendered, renderedPrice, postSubtotal, postConf, hlimo,
      rates_get_default t h1 h2 h3]

/-- Closed witness for C7: tier string "Limousine 99" is priced with the
Sedan rates. -/
theorem C7_unknown_tier_defaults_to_sedan_witness :
    renderedPrice (viewRendered (bookings (envKm 10000) none "2026-01-01" true
      { c1post with limo_service_type := some "Limousine 99" } emptySession)) =
      some (calcFinal (priceSubtotal ⟨30.00, 3.50, 15.00⟩ 10
        (stripOrNone ({ c1post with limo_service_type := some "Limousine 99" } : Post).additional_stop).isSome
        ({ c1post with limo_service_type := some "Limousine 99" } : Post).has_tolls
        ({ c1post with limo_service_type := some "Limousine 99" } : Post).baby_seat)
        ({ c1post with limo_service_type := some "Limousine 99" } : Post).return_ride) :=
  C7_unknown_tier_defaults_to_sedan.2.1 (envKm 10000) none "2026-01-01"
    { c1post with limo_service_type := some "Limousine 99" } emptySession 10
    "Limousine 99" rfl (by decide) (by decide) (by decide) rfl
    (by rw [envKm_route, pyRound2_10000])

/-- A breakdown value as `calculate` would stash it for the Sedan 10 km
one-way trip. -/
def bd0 : Breakdown := ⟨30, 10, 35, 0, 0, 0, false, 65⟩

/-- A session as left by a `calculate`: price 65.00, breakdown `bd0`,
tolls flag true. -/
def s8 : Session := ⟨some 65, some bd0, some true⟩

/-- Counterexample to C8: when persistence fails during confirm, only
`pending_price` has been consumed — `pending_breakdown` and
`pending_has_tolls` are still in the session (they are popped only on the
success path), contradicting the claim that all of the pending session
state has already been consumed. -/
theorem C8_counterexample :
    viewSession (bookings (envKm 10000) (some "database unavailable")
      "2026-01-01" true c2post s8) = ⟨none, some bd0, some true⟩
    ∧ (viewSession (bookings (envKm 10000) (some "database unavailable")
        "2026-01-01" true c2post s8)).pending_breakdown ≠ none := by
  have h := bookings_confirm_dbfail (envKm 10000) "database unavailable"
    "2026-01-01" c2post s8 65 rfl rfl
  constructor
  · rw [h]
    rfl
  · rw [h]
    simp [viewSession, s8]

/-- C8 amended: on persistence failure during confirm the form is
re-rendered with an error, no record exists, and `pending_price` — but
only `pending_price` — has been consumed, so a retry of confirm fails
with the session-expired error; on the success path all three pending keys
are popped, `pending_breakdown` and `pending_has_tolls` for display only,
defaulting to an empty breakdown and false when absent. Holds in both
variants. -/
theorem C8_confirm_failure_amended :
    (∀ (env : OsrmEnv) (e today : String) (p : Post) (s : Session) (price : ℚ),
      p.action.getD "calculate" = "confirm" → s.pending_price = some price →
      bookings env (some e) today true p s =
        (.formError "bookings/booking_form.html"
          ("Could not save your booking: " ++ e) (extractForm today p),
         { s with pending_price := none }, none))
    ∧ (∀ (env : OsrmEnv) (e today : String) (p : Post) (s : Session) (price : ℚ),
      p.action.getD "calculate" = "confirm" → s.pending_price = some price →
      ∀ (env2 : OsrmEnv) (db2 : Option String) (today2 : String) (p2 : Post),
        p2.action.getD "calculate" = "confirm" →
        viewRec (bookings env2 db2 today2 true p2
          (viewSession (bookings env (some e) today true p s))) = none
        ∧ renderedError (viewRendered (bookings env2 db2 today2 true p2
            (viewSession (bookings env (some e) today true p s)))) =
              some "Your session expired. Please fill in the form again.")
    ∧ (∀ (env : OsrmEnv) (today : String) (p : Post) (s : Session) (price : ℚ),
      p.action.getD "calculate" = "confirm" → s.pending_price = some price →
      bookings env none today true p s =
        (.confirmed "orders/booking_confirmed.html" (mkRecord today p price)
          s.pending_breakdown (s.pending_has_tolls.getD false) p.return_ride,
         ⟨none, none, none⟩, some (mkRecord today p price)))
    ∧ (∀ (dirs : GDirections) (e today : String) (p : Post) (s : Session) (price : ℚ),
      p.action.getD "calculate" = "confirm" → s.pending_price = some price →
      orders dirs (some e) today true p s =
        (.formError "orders/booking_form.html"
          ("Could not save your booking: " ++ e) (extractForm today p),
         { s with pending_price := none }, none))
    ∧ (∀ (dirs : GDirections) (e today : String) (p : Post) (s : Session) (price : ℚ),
      p.action.getD "calculate" = "confirm" → s.pending_price = some price →
      ∀ (dirs2 : GDirections) (db2 : Option String) (today2 : String) (p2 : Post),
        p2.action.getD "calculate" = "confirm" →
        viewRec (orders dirs2 db2 today2 true p2
          (viewSession (orders dirs (some e) today true p s))) = none
        ∧ renderedError (viewRendered (orders dirs2 db2 today2 true p2
            (viewSession (orders dirs (some e) today true p s)))) =
              some "Your session expired. Please recalculate the price.")
    ∧ (∀ (dirs : GDirections) (today : String) (p : Post) (s : Session) (price : ℚ),
      p.action.getD "calculate" = "confirm" → s.pending_price = some price →
      orders dirs none today true p s =
        (.confirmed "orders/booking_confirmed.html" (mkRecord today p price)
          s.pending_breakdown (s.pending_has_tolls.getD false) p.return_ride,
         ⟨none, none, none⟩, some (mkRecord today p price))) := by
  refine ⟨?_, ?_, ?_, ?_, ?_, ?_⟩
  · intro env e today p s price ha hp
    exact bookings_confirm_dbfail env e today p s price ha hp
  · intro env e today p s price ha hp env2 db2 today2 p2 ha2
    rw [bookings_confirm_dbfail env e today p s price ha hp]
    rw [show viewSession (Rendered.formError "bookings/booking_form.html"
        ("Could not save your booking: " ++ e) (extractForm today p),
        { s with pending_price := none }, (none : Option BookingRecord)) =
        { s with pending_price := none } from rfl]
    rw [bookings_confirm_expired env2 db2 today2 p2 _ ha2 rfl]
    exact ⟨rfl, rfl⟩
  · intro env today p s price ha hp
    exact bookings_confirm_ok env today p s price ha hp
  · intro dirs e today p s price ha hp
    exact orders_confirm_dbfail dirs e today p s price ha hp
  · intro dirs e today p s price ha hp dirs2 db2 today2 p2 ha2
    rw [orders_confirm_dbfail dirs e today p s price ha hp]
    rw [show viewSession (Rendered.formError "orders/booking_form.html"
        ("Could not save your booking: " ++ e) (extractForm today p),
        { s with pending_price := none }, (none : Option BookingRecord)) =
        { s with pending_price := none } from rfl]
    rw [orders_confirm_expired dirs2 db2 today2 p2 _ ha2 rfl]
    exact ⟨rfl, rfl⟩
  · intro dirs today p s price ha hp
    exact orders_confirm_ok dirs today p s price ha hp

/-- Closed witness for C8 amended: the persistence-failure case at a
concrete session. -/
theorem C8_confirm_failure_amended_witness :
    bookings (envKm 10000) (some "database unavailable") "2026-01-01" true
      c2post s8 =
      (.formError "bookings/booking_form.html"
        ("Could not save your booking: " ++ "database unavailable")
        (extractForm "2026-01-01" c2post),
       { s8 with pending_price := none }, none) :=
  C8_confirm_failure_amended.1 (envKm 10000) "database unavailable"
    "2026-01-01" c2post s8 65 rfl rfl

/-- A 10 km Google Maps leg whose step instructions mention a toll road. -/
def tollLeg : GLeg := ⟨10000, ["Continue on Toll road M2"]⟩

/-- A directions call that always returns one route of one toll leg. -/
def dirsToll : GDirections := fun _ _ _ => .ok [[tollLeg]]

lemma legsTolls_tollLeg : legsTolls [tollLeg] = true := by decide

lemma legsMeters_tollLeg : legsMeters [tollLeg] = 10000 := by decide

/-- Counterexample to C9: the two variants do not surface tolls by the
same rule. On the same submission (toll checkbox unticked) over the same
10 km route that passes a toll road, the orders variant detects the toll
from the route instructions and prices 83.50 with `pending_has_tolls =
true`, while the bookings variant trusts the unticked checkbox and prices
65.00 with `pending_has_tolls = false`. -/
theorem C9_counterexample :
    renderedPrice (viewRendered
      (orders dirsToll none "2026-01-01" true c1post emptySession)) = some 83.50
    ∧ renderedPrice (viewRendered
        (bookings (envKm 10000) none "2026-01-01" true c1post emptySession)) = some 65
    ∧ (viewSession (orders dirsToll none "2026-01-01" true c1post emptySession)).pending_has_tolls
        = some true
    ∧ (viewSession (bookings (envKm 10000) none "2026-01-01" true c1post
        emptySession)).pending_has_tolls = some false
    ∧ (83.50 : ℚ) ≠ 65 := by
  have hro : dirsToll (pyStrip c1post.pickup_address)
      (pyStrip c1post.destination_address) (stripOrNone c1post.additional_stop) =
        .ok ([tollLeg] :: []) := rfl
  have ho := orders_calc_ok dirsToll none "2026-01-01" c1post emptySession
    [tollLeg] [] rfl hro
  have hrb : get_route (envKm 10000) (pyStrip c1post.pickup_address)
      (pyStrip c1post.destination_address) (stripOrNone c1post.additional_stop) =
        .ok 10 := by
    rw [envKm_route, pyRound2_10000]
  have hb := bookings_calc_ok (envKm 10000) none "2026-01-01" c1post
    emptySession 10 rfl hrb
  refine ⟨?_, ?_, ?_, ?_, by norm_num⟩
  · rw [ho]
    simp only [viewRendered, renderedPrice, Option.some.injEq, calcFinal,
      postSubtotal, priceSubtotal, postConf, legsTolls_tollLeg,
      legsMeters_tollLeg, c1post, blankPost, stripOrNone_empty,
      Option.getD_some, rates_get_sedan]
    norm_num [pyRound2, roundHalfEven]
  · rw [hb]
    simp only [viewRendered, renderedPrice, Option.some.injEq, calcFinal,
      postSubtotal, priceSubtotal, postConf, c1post, blankPost,
      stripOrNone_empty, Option.getD_some, rates_get_sedan]
    norm_num [pyRound2, roundHalfEven]
  · rw [ho]
    simp [viewSession, legsTolls_tollLeg]
  · rw [hb]
    simp [viewSession, c1post, blankPost]

/-- C9 amended: given the same resolved distance and the same effective
toll flag, the two variants produce identical previews, session writes and
records, and impose the identical session-price confirm protocol (same
persisted record, same session evolution, identical rendering on the
success path); but the toll flag is sourced differently (manual checkbox
vs route-instruction scan), and error wording and form templates differ
slightly. -/
theorem C9_variants_equivalent_amended :
    (∀ (env : OsrmEnv) (dirs : GDirections) (db : Option String) (today : String)
        (p : Post) (s : Session) (legs : List GLeg) (rest : List (List GLeg)) (d : ℚ),
      p.action.getD "calculate" = "calculate" →
      get_route env (pyStrip p.pickup_address) (pyStrip p.destination_address)
          (stripOrNone p.additional_stop) = .ok d →
      dirs (pyStrip p.pickup_address) (pyStrip p.destination_address)
          (stripOrNone p.additional_stop) = .ok (legs :: rest) →
      pyRound2 ((legsMeters legs : ℚ) / 1000) = d →
      legsTolls legs = p.has_tolls →
      orders dirs db today true p s = bookings env db today true p s)
    ∧ (∀ (env : OsrmEnv) (dirs : GDirections) (db : Option String)
        (today : String) (p : Post) (s : Session),
      p.action.getD "calculate" = "confirm" →
      viewRec (orders dirs db today true p s) = viewRec (bookings env db today true p s)
      ∧ viewSession (orders dirs db today true p s) =
          viewSession (bookings env db today true p s))
    ∧ (∀ (env : OsrmEnv) (dirs : GDirections) (today : String) (p : Post)
        (s : Session) (price : ℚ),
      p.action.getD "calculate" = "confirm" → s.pending_price = some price →
      orders dirs none today true p s = bookings env none today true p s) := by
  refine ⟨?_, ?_, ?_⟩
  · intro env dirs db today p s legs rest d ha hrb hro hd ht
    rw [orders_calc_ok dirs db today p s legs rest ha hro,
        bookings_calc_ok env db today p s d ha hrb, hd, ht]
  · intro env dirs db today p s ha
    cases hp : s.pending_price with
    | none =>
      rw [orders_confirm_expired dirs db today p s ha hp,
          bookings_confirm_expired env db today p s ha hp]
      exact ⟨rfl, rfl⟩
    | some price =>
      match db with
      | none =>
        rw [orders_confirm_ok dirs today p s price ha hp,
            bookings_confirm_ok env today p s price ha hp]
        exact ⟨rfl, rfl⟩
      | some e =>
        rw [orders_confirm_dbfail dirs e today p s price ha hp,
            bookings_confirm_dbfail env e today p s price ha hp]
        exact ⟨rfl, rfl⟩
  · intro env dirs today p s price ha hp
    rw [orders_confirm_ok dirs today p s price ha hp,
        bookings_confirm_ok env today p s price ha hp]

/-- Closed witness for C9 amended: a successful confirm is rendered
identically by the two variants. -/
theorem C9_variants_equivalent_amended_witness :
    orders dirsToll none "2026-01-01" true c2post s8 =
      bookings (envKm 10000) none "2026-01-01" true c2post s8 :=
  C9_variants_equivalent_amended.2.2 (envKm 10000) dirsToll "2026-01-01"
    c2post s8 65 rfl rfl

/-- C10: at confirm, an empty submitted `pickup_time` is persisted as the
Python `time(0, 0)` (midnight) rather than rejected or stored empty.
Holds in both variants. -/
theorem C10_empty_pickup_time_midnight :
    (∀ (env : OsrmEnv) (today : String) (p : Post) (s : Session) (price : ℚ),
      p.action.getD "calculate" = "confirm" → s.pending_price = some price →
      p.pickup_time = "" →
      (viewRec (bookings env none today true p s)).map (fun r => r.pickup_time) =
        some (.time 0 0))
    ∧ (∀ (dirs : GDirections) (today : String) (p : Post) (s : Session) (price : ℚ),
      p.action.getD "calculate" = "confirm" → s.pending_price = some price →
      p.pickup_time = "" →
      (viewRec (orders dirs none today true p s)).map (fun r => r.pickup_time) =
        some (.time 0 0)) := by
  constructor
  · intro env today p s price ha hp hpt
    rw [bookings_confirm_ok env today p s price ha hp]
    simp [viewRec, mkRecord, extractForm, hpt]
  · intro dirs today p s price ha hp hpt
    rw [orders_confirm_ok dirs today p s price ha hp]
    simp [viewRec, mkRecord, extractForm, hpt]

/-- Closed witness for C10: a confirm with empty pickup time persists
midnight. -/
theorem C10_empty_pickup_time_midnight_witness :
    (viewRec (bookings (envKm 10000) none "2026-01-01" true c2post s8)).map
      (fun r => r.pickup_time) = some (.time 0 0) :=
  C10_empty_pickup_time_midnight.1 (envKm 10000) "2026-01-01" c2post s8 65
    rfl rfl rfl
